import Mathlib

/-!
Verification development for a PNG-subset decoder (Rust crate `pngss`).

Shallow embedding: bytes are `Nat` values below 256; `u8` wrapping
arithmetic is `% 256`; the Paeth predictor's signed `i32` arithmetic is
`Int`.  Fallible Rust code returns `Except DecodeError`; Rust panics
(`unwrap` on `None`, out-of-bounds indexing, `unreachable!`) are modelled
by an outer `Option`, `none` meaning the code panics.

The chunk-walking loops of the source advance an iterator by at least 12
bytes per step; they are embedded as structurally recursive functions over
an explicit fuel argument, with the public wrappers passing the byte
list's length as fuel, which always suffices (each step consumes at least
one byte of the remaining input, and zero-length input makes the first
peek fail).

The entropy decoder (`compress::deflate::Deflate::inflate`) is an external
collaborator outside this repository; `decode` is parameterised by it
(`inflate : List Nat -> Nat -> Option (List Nat)`, `none` meaning the
inflate error that the caller maps to `InvalidData`).

The source targets both 32- and 64-bit pointers; the embedding models the
64-bit build, where the `cfg!(target_pointer_width = "32")` overflow guard
in `PngDecoder::new` is compiled out.
-/

deriving instance DecidableEq for Except

set_option maxRecDepth 100000
set_option maxHeartbeats 1000000

namespace Pngss

/-- Mirrors `enum DecodeError` in src/lib.rs. -/
inductive DecodeError where
  | InvalidData
  | UnsupportedFormat
deriving DecidableEq, Repr

/-- Mirrors `struct RGB888` in src/color.rs (one palette entry). -/
structure RGB888 where
  r : Nat
  g : Nat
  b : Nat
deriving DecidableEq, Repr

/-- Component view of `RGBA8888` (src/color.rs `RGBAComponents8888`);
the architecture-dependent packed `u32` is an internal representation
detail, so the embedding keeps only the canonical component decomposition. -/
structure RGBA8888 where
  r : Nat
  g : Nat
  b : Nat
  a : Nat
deriving DecidableEq, Repr

/-- `RGBA8888::from_gray` in src/color.rs. -/
def RGBA8888.fromGray (gray : Nat) : RGBA8888 := ⟨gray, gray, gray, 255⟩

/-- `RGBA8888::from_gray_alpha` in src/color.rs. -/
def RGBA8888.fromGrayAlpha (w a : Nat) : RGBA8888 := ⟨w, w, w, a⟩

/-- `RGBA8888::from_rgb` in src/color.rs. -/
def RGBA8888.fromRgb (r g b : Nat) : RGBA8888 := ⟨r, g, b, 255⟩

/-- `RGBA8888::from_rgba` in src/color.rs. -/
def RGBA8888.fromRgba (r g b a : Nat) : RGBA8888 := ⟨r, g, b, a⟩

/-- `RGB888::into_rgba` in src/color.rs (alpha set to `0xFF`). -/
def RGB888.intoRgba (c : RGB888) : RGBA8888 := ⟨c.r, c.g, c.b, 255⟩

/-- Mirrors `enum ImageType` in src/image_data.rs. -/
inductive ImageType where
  | Grayscale
  | GrayscaleAlpha
  | RGB
  | RGBA
  | Indexed
deriving DecidableEq, Repr

/-- `ImageType::n_channels` in src/image_data.rs. -/
def ImageType.nChannels : ImageType → Nat
  | .Grayscale => 1
  | .GrayscaleAlpha => 2
  | .RGB => 3
  | .RGBA => 4
  | .Indexed => 1

/-- Mirrors `enum BitDepth` in src/image_data.rs; `val` is the Rust
discriminant (1, 2, 4, 8), which also drives the derived ordering. -/
inductive BitDepth where
  | Bpp1
  | Bpp2
  | Bpp4
  | Bpp8
deriving DecidableEq, Repr

/-- The Rust discriminant of `BitDepth` (`as usize` and the derived
`PartialOrd`/`Ord` both use it). -/
def BitDepth.val : BitDepth → Nat
  | .Bpp1 => 1
  | .Bpp2 => 2
  | .Bpp4 => 4
  | .Bpp8 => 8

/-- `BitDepth::new` in src/image_data.rs. -/
def BitDepth.new (v : Nat) : Option BitDepth :=
  match v with
  | 1 => some .Bpp1
  | 2 => some .Bpp2
  | 4 => some .Bpp4
  | 8 => some .Bpp8
  | _ => none

/-- Mirrors `struct ImageInfo` in src/image_data.rs. -/
structure ImageInfo where
  width : Nat
  height : Nat
  bitDepth : BitDepth
  imageType : ImageType
deriving DecidableEq, Repr

/-- Mirrors `struct FourCC` in src/lib.rs (four tag bytes). -/
structure FourCC where
  b0 : Nat
  b1 : Nat
  b2 : Nat
  b3 : Nat
deriving DecidableEq, Repr

def FourCC.IHDR : FourCC := ⟨0x49, 0x48, 0x44, 0x52⟩
def FourCC.PLTE : FourCC := ⟨0x50, 0x4C, 0x54, 0x45⟩
def FourCC.IDAT : FourCC := ⟨0x49, 0x44, 0x41, 0x54⟩
def FourCC.IEND : FourCC := ⟨0x49, 0x45, 0x4E, 0x44⟩

/-- `u8::is_ascii_alphabetic`. -/
def isAsciiAlpha (b : Nat) : Bool :=
  (65 ≤ b && b ≤ 90) || (97 ≤ b && b ≤ 122)

/-- `FourCC::is_ancillary` in src/lib.rs: bit 5 of byte 0. -/
def FourCC.isAncillary (c : FourCC) : Bool := c.b0 &&& 0x20 != 0

/-- `FourCC::is_critical` in src/lib.rs. -/
def FourCC.isCritical (c : FourCC) : Bool := !c.isAncillary

/-- `FourCC::is_reserved` in src/lib.rs: bit 5 of byte 2. -/
def FourCC.isReserved (c : FourCC) : Bool := c.b2 &&& 0x20 != 0

/-- `FourCC::is_valid` in src/lib.rs. -/
def FourCC.isValid (c : FourCC) : Bool :=
  isAsciiAlpha c.b0 && isAsciiAlpha c.b1 && isAsciiAlpha c.b2 &&
    isAsciiAlpha c.b3 && !c.isReserved

/-- `Be32::as_u32` (`u32::from_be_bytes`) applied to the first four
list elements. -/
def be32 (l : List Nat) : Nat :=
  l.getD 0 0 * 16777216 + l.getD 1 0 * 65536 + l.getD 2 0 * 256 + l.getD 3 0

/-- `u32::to_be_bytes` (used to build concrete chunk framings). -/
def be32enc (n : Nat) : List Nat :=
  [n / 16777216 % 256, n / 65536 % 256, n / 256 % 256, n % 256]

/-- First four elements of a list as a `FourCC`. -/
def fourccOf (l : List Nat) : FourCC :=
  ⟨l.getD 0 0, l.getD 1 0, l.getD 2 0, l.getD 3 0⟩

/-- Mirrors `struct PngChunk` in src/lib.rs. -/
structure PngChunk where
  len : Nat
  chunkType : FourCC
  data : List Nat
  crc : Nat
deriving DecidableEq, Repr

/-- `Chunks::peek_chunk` in src/lib.rs: parse one chunk's framing from
the remaining bytes without consuming them. -/
def peekChunk (s : List Nat) : Except DecodeError PngChunk :=
  if s.length < 12 then .error .InvalidData
  else
    let length := be32 (s.take 4)
    let ct := fourccOf ((s.drop 4).take 4)
    let rest8 := s.drop 8
    if ct.isValid = false then .error .InvalidData
    else if rest8.length < length then .error .InvalidData
    else if s.length < length + 12 then .error .InvalidData
    else .ok ⟨length, ct, rest8.take length, be32 ((rest8.drop length).take 4)⟩

/-- `Chunks::next_chunk` advances the iterator past `len + 12` bytes
(`self.iter.nth(chunk.len() + 11)`); this is the new iterator state. -/
def chunkRest (s : List Nat) (c : PngChunk) : List Nat := s.drop (c.len + 12)

/-- The borrow-or-own buffer (`alloc::borrow::Cow<[u8]>`). -/
inductive Cow where
  | borrowed (l : List Nat)
  | owned (l : List Nat)
deriving DecidableEq, Repr

/-- The bytes held by a `Cow` regardless of ownership. -/
def Cow.content : Cow → List Nat
  | .borrowed l => l
  | .owned l => l

/-- One step of the IDAT merge in `Chunks::get_idat_chunks`: a first
payload is borrowed, any further payload forces an owned concatenation. -/
def cowPush : Option Cow → List Nat → Cow
  | none, p => .borrowed p
  | some (.borrowed v), p => .owned (v ++ p)
  | some (.owned v), p => .owned (v ++ p)

/-- `chunk.data().chunks_exact(3).map(|v| RGB888::new(v[0], v[1], v[2]))`
in the PLTE arm of `PngDecoder::decode`. -/
def plteEntries : List Nat → List RGB888
  | r :: g :: b :: rest => ⟨r, g, b⟩ :: plteEntries rest
  | _ => []

/-- The pre-IDAT scan loop of `PngDecoder::decode` (src/lib.rs lines
110-134), fuel-indexed.  It peeks a chunk, breaks at IDAT (returning the
cursor still at the IDAT chunk), captures a single well-formed PLTE, fails
with `UnsupportedFormat` on any other critical chunk, skips ancillary
chunks, and otherwise advances. -/
def prescanF : Nat → Option (List RGB888) → List Nat →
    Except DecodeError (Option (List RGB888) × List Nat)
  | 0, _, _ => .error .InvalidData
  | fuel + 1, pal, s =>
    match peekChunk s with
    | .error e => .error e
    | .ok c =>
      if c.chunkType = FourCC.IDAT then .ok (pal, s)
      else if c.chunkType = FourCC.PLTE then
        if c.len % 3 ≠ 0 ∨ pal.isSome then .error .InvalidData
        else prescanF fuel (some (plteEntries c.data)) (chunkRest s c)
      else if c.chunkType.isCritical then .error .UnsupportedFormat
      else prescanF fuel pal (chunkRest s c)

/-- Pre-IDAT scan with adequate fuel (`s.length` always suffices: every
step consumes at least 12 bytes). -/
def prescan (pal : Option (List RGB888)) (s : List Nat) :
    Except DecodeError (Option (List RGB888) × List Nat) :=
  prescanF s.length pal s

/-- The merge loop of `Chunks::get_idat_chunks` (src/lib.rs lines
547-575), fuel-indexed: consume chunks, stop at IEND, concatenate IDAT
payloads (borrowing the first, owning from the second on), fail on
critical non-IDAT chunks, skip ancillary ones. -/
def getIdatLoopF : Nat → Option Cow → List Nat → Except DecodeError Cow
  | 0, _, _ => .error .InvalidData
  | fuel + 1, data, s =>
    match peekChunk s with
    | .error e => .error e
    | .ok c =>
      if c.chunkType = FourCC.IEND then
        match data with
        | none => .error .InvalidData
        | some v => .ok v
      else if c.chunkType ≠ FourCC.IDAT then
        if c.chunkType.isCritical then .error .UnsupportedFormat
        else getIdatLoopF fuel data (chunkRest s c)
      else getIdatLoopF fuel (some (cowPush data c.data)) (chunkRest s c)

/-- The optional palette-skipping pre-loop of `Chunks::get_idat_chunks`
(run only when `skip_plte` is false), fuel-indexed. -/
def getIdatPreF : Nat → List Nat → Except DecodeError (List Nat)
  | 0, _ => .error .InvalidData
  | fuel + 1, s =>
    match peekChunk s with
    | .error e => .error e
    | .ok c =>
      if c.chunkType = FourCC.IDAT then .ok s
      else if c.chunkType = FourCC.PLTE then getIdatPreF fuel (chunkRest s c)
      else if c.chunkType.isCritical then .error .UnsupportedFormat
      else getIdatPreF fuel (chunkRest s c)

/-- `Chunks::get_idat_chunks` in src/lib.rs. -/
def getIdatChunks (skipPlte : Bool) (s : List Nat) : Except DecodeError Cow :=
  if skipPlte then getIdatLoopF s.length none s
  else
    match getIdatPreF s.length s with
    | .error e => .error e
    | .ok s2 => getIdatLoopF s2.length none s2

/-- Mirrors `enum FilterType` in src/lib.rs. -/
inductive FilterType where
  | None
  | Sub
  | Up
  | Average
  | Paeth
deriving DecidableEq, Repr

/-- `FilterType::new` in src/lib.rs. -/
def FilterType.new (v : Nat) : Option FilterType :=
  match v with
  | 0 => some .None
  | 1 => some .Sub
  | 2 => some .Up
  | 3 => some .Average
  | 4 => some .Paeth
  | _ => none

/-- `fn average` in src/lib.rs: `((lhs as u16 + rhs as u16) >> 1) as u8`
(arguments are byte values, so the final truncation is the identity). -/
def average (lhs rhs : Nat) : Nat := (lhs + rhs) / 2 % 256

/-- `fn paeth` in src/lib.rs: the Paeth predictor computed over signed
`i32` values, with `abs_diff` distances and ties broken left, above,
upper-left. -/
def paeth (left above upperLeft : Nat) : Nat :=
  let a : Int := left
  let b : Int := above
  let c : Int := upperLeft
  let p := a + b - c
  let pa := (p - a).natAbs
  let pb := (p - b).natAbs
  let pc := (p - c).natAbs
  if pa ≤ pb ∧ pa ≤ pc then left % 256
  else if pb ≤ pc then above % 256
  else upperLeft % 256

/-! ### Scanline reconstruction (src/lib.rs lines 161-399)

The source specialises each filter over the four channel counts; the
embedding keeps one function per (filter, channel-count) pair.  All the
`for ... in a.chunks_exact(k).zip(b.chunks_exact(k))` loops stop as soon
as either list runs out of a full `k`-element group; in particular, when
the previous-row buffer is empty (the very first row), the Average and
Paeth loops run zero iterations and emit an empty line — exactly as the
source does. -/

/-- Sub filter, 1 channel (src/lib.rs lines 175-182). -/
def sub1 : List Nat → Nat → List Nat
  | [], _ => []
  | x :: xs, prev =>
    let v := (x + prev) % 256
    v :: sub1 xs v

/-- Sub filter, 2 channels (src/lib.rs lines 183-195). -/
def sub2 : List Nat → Nat → Nat → List Nat
  | x0 :: x1 :: xs, py, pa =>
    let y := (x0 + py) % 256
    let a := (x1 + pa) % 256
    y :: a :: sub2 xs y a
  | _, _, _ => []

/-- Sub filter, 3 channels (src/lib.rs lines 196-212). -/
def sub3 : List Nat → Nat → Nat → Nat → List Nat
  | x0 :: x1 :: x2 :: xs, pr, pg, pb =>
    let r := (x0 + pr) % 256
    let g := (x1 + pg) % 256
    let b := (x2 + pb) % 256
    r :: g :: b :: sub3 xs r g b
  | _, _, _, _ => []

/-- Sub filter, 4 channels (src/lib.rs lines 213-233). -/
def sub4 : List Nat → Nat → Nat → Nat → Nat → List Nat
  | x0 :: x1 :: x2 :: x3 :: xs, pr, pg, pb, pa =>
    let r := (x0 + pr) % 256
    let g := (x1 + pg) % 256
    let b := (x2 + pb) % 256
    let a := (x3 + pa) % 256
    r :: g :: b :: a :: sub4 xs r g b a
  | _, _, _, _, _ => []

/-- Up filter body: zip the filtered row with the previous row
(src/lib.rs lines 240-242). -/
def zipAdd : List Nat → List Nat → List Nat
  | x :: xs, b :: bs => (x + b) % 256 :: zipAdd xs bs
  | _, _ => []

/-- Up filter (src/lib.rs lines 236-244): the first row (empty previous
row) is copied verbatim. -/
def upRow (src prevLine : List Nat) : List Nat :=
  if prevLine = [] then src else zipAdd src prevLine

/-- Average filter, 1 channel (src/lib.rs lines 246-253). -/
def avg1 : List Nat → List Nat → Nat → List Nat
  | x :: xs, ab :: abv, prev =>
    let v := (x + average ab prev) % 256
    v :: avg1 xs abv v
  | _, _, _ => []

/-- Average filter, 2 channels (src/lib.rs lines 254-267). -/
def avg2 : List Nat → List Nat → Nat → Nat → List Nat
  | x0 :: x1 :: xs, b0 :: b1 :: bs, py, pa =>
    let y := (x0 + average b0 py) % 256
    let a := (x1 + average b1 pa) % 256
    y :: a :: avg2 xs bs y a
  | _, _, _, _ => []

/-- Average filter, 3 channels (src/lib.rs lines 268-285). -/
def avg3 : List Nat → List Nat → Nat → Nat → Nat → List Nat
  | x0 :: x1 :: x2 :: xs, b0 :: b1 :: b2 :: bs, pr, pg, pb =>
    let r := (x0 + average b0 pr) % 256
    let g := (x1 + average b1 pg) % 256
    let b := (x2 + average b2 pb) % 256
    r :: g :: b :: avg3 xs bs r g b
  | _, _, _, _, _ => []

/-- Average filter, 4 channels (src/lib.rs lines 286-307). -/
def avg4 : List Nat → List Nat → Nat → Nat → Nat → Nat → List Nat
  | x0 :: x1 :: x2 :: x3 :: xs, b0 :: b1 :: b2 :: b3 :: bs, pr, pg, pb, pa =>
    let r := (x0 + average b0 pr) % 256
    let g := (x1 + average b1 pg) % 256
    let b := (x2 + average b2 pb) % 256
    let a := (x3 + average b3 pa) % 256
    r :: g :: b :: a :: avg4 xs bs r g b a
  | _, _, _, _, _, _ => []

/-- Paeth filter, 1 channel (src/lib.rs lines 311-320). -/
def paeth1 : List Nat → List Nat → Nat → Nat → List Nat
  | x :: xs, ab :: abv, left, upperLeft =>
    let v := (x + paeth left ab upperLeft) % 256
    v :: paeth1 xs abv v ab
  | _, _, _, _ => []

/-- Paeth filter, 2 channels (src/lib.rs lines 321-338). -/
def paeth2 : List Nat → List Nat → Nat → Nat → Nat → Nat → List Nat
  | x0 :: x1 :: xs, b0 :: b1 :: bs, ly, la, uy, ua =>
    let y := (x0 + paeth ly b0 uy) % 256
    let a := (x1 + paeth la b1 ua) % 256
    y :: a :: paeth2 xs bs y a b0 b1
  | _, _, _, _, _, _ => []

/-- Paeth filter, 3 channels (src/lib.rs lines 339-362). -/
def paeth3 : List Nat → List Nat → Nat → Nat → Nat → Nat → Nat → Nat → List Nat
  | x0 :: x1 :: x2 :: xs, b0 :: b1 :: b2 :: bs, lr, lg, lb, ur, ug, ub =>
    let r := (x0 + paeth lr b0 ur) % 256
    let g := (x1 + paeth lg b1 ug) % 256
    let b := (x2 + paeth lb b2 ub) % 256
    r :: g :: b :: paeth3 xs bs r g b b0 b1 b2
  | _, _, _, _, _, _, _, _ => []

/-- Paeth filter, 4 channels (src/lib.rs lines 363-392). -/
def paeth4 : List Nat → List Nat → Nat → Nat → Nat → Nat → Nat → Nat → Nat → Nat →
    List Nat
  | x0 :: x1 :: x2 :: x3 :: xs, b0 :: b1 :: b2 :: b3 :: bs,
      lr, lg, lb, la, ur, ug, ub, ua =>
    let r := (x0 + paeth lr b0 ur) % 256
    let g := (x1 + paeth lg b1 ug) % 256
    let b := (x2 + paeth lb b2 ub) % 256
    let a := (x3 + paeth la b3 ua) % 256
    r :: g :: b :: a :: paeth4 xs bs r g b a b0 b1 b2 b3
  | _, _, _, _, _, _, _, _, _, _ => []

/-- One row of defiltering, dispatched on filter type and channel count
exactly as the source's nested matches; `none` models the
`unreachable!()` arms (channel counts outside 1..4). -/
def reconRow (ft : FilterType) (nc : Nat) (src prevLine : List Nat) :
    Option (List Nat) :=
  match ft with
  | .None => some src
  | .Sub =>
    match nc with
    | 1 => some (sub1 src 0)
    | 2 => some (sub2 src 0 0)
    | 3 => some (sub3 src 0 0 0)
    | 4 => some (sub4 src 0 0 0 0)
    | _ => none
  | .Up => some (upRow src prevLine)
  | .Average =>
    match nc with
    | 1 => some (avg1 src prevLine 0)
    | 2 => some (avg2 src prevLine 0 0)
    | 3 => some (avg3 src prevLine 0 0 0)
    | 4 => some (avg4 src prevLine 0 0 0 0)
    | _ => none
  | .Paeth =>
    match nc with
    | 1 => some (paeth1 src prevLine 0 0)
    | 2 => some (paeth2 src prevLine 0 0 0 0)
    | 3 => some (paeth3 src prevLine 0 0 0 0 0 0)
    | 4 => some (paeth4 src prevLine 0 0 0 0 0 0 0 0)
    | _ => none

/-- The per-row reconstruction loop of `PngDecoder::decode` (src/lib.rs
lines 161-399): per row read one filter byte (`InvalidData` if absent or
not 0..4), read exactly `stride` filtered bytes (`InvalidData` on
underrun), defilter, append to the output, and make the new line the
previous row of the next iteration. -/
def reconLoop (nc stride : Nat) : Nat → List Nat → List Nat →
    Option (Except DecodeError (List Nat))
  | 0, _, _ => some (.ok [])
  | h + 1, source, prevLine =>
    match source with
    | [] => some (.error .InvalidData)
    | ftb :: rest =>
      match FilterType.new ftb with
      | none => some (.error .InvalidData)
      | some ft =>
        if rest.length < stride then some (.error .InvalidData)
        else
          let lineSrc := rest.take stride
          let next := rest.drop stride
          match reconRow ft nc lineSrc prevLine with
          | none => none
          | some line =>
            match reconLoop nc stride h next line with
            | none => none
            | some (.error e) => some (.error e)
            | some (.ok tail) => some (.ok (line ++ tail))

/-! ### Bit-depth expansion (src/lib.rs lines 401-468) -/

/-- The inner `for i in (0..count).rev()` loops of the bit-depth
expansion: emit `(byte >> (i * shiftMul)) & mask` for `i` descending from
`count - 1` to `0`. -/
def bitsDesc (byte shiftMul mask : Nat) : Nat → List Nat
  | 0 => []
  | i + 1 => ((byte >>> (i * shiftMul)) &&& mask) :: bitsDesc byte shiftMul mask i

/-- The per-row walk shared by the three `BitDepth` arms of the
expansion: per row take `wdiv` full bytes (each yielding `gsize`
samples), then, when `wrem > 0`, take one more byte for the partial group
via `iter.next().unwrap()` — `none` models that unwrap panicking on an
exhausted iterator.  The partial byte contributes
`(byte >> (i * shiftMul)) & mask` for `i` in `(0..wrem).rev()`, exactly
as the source writes it. -/
def unpackRows (wdiv wrem shiftMul mask gsize : Nat) : Nat → List Nat →
    Option (List Nat)
  | 0, _ => some []
  | h + 1, bytes =>
    let fullBytes := bytes.take wdiv
    let rest := bytes.drop wdiv
    let headSamples := fullBytes.flatMap (fun b => bitsDesc b shiftMul mask gsize)
    if wrem = 0 then
      match unpackRows wdiv wrem shiftMul mask gsize h rest with
      | none => none
      | some tail => some (headSamples ++ tail)
    else
      match rest with
      | [] => none
      | b :: rest2 =>
        match unpackRows wdiv wrem shiftMul mask gsize h rest2 with
        | none => none
        | some tail => some (headSamples ++ bitsDesc b shiftMul mask wrem ++ tail)

/-- The `if self.info.bit_depth < BitDepth::Bpp8` expansion block,
instantiating `unpackRows` with the constants of each `BitDepth` arm
(width/8 and width&7 for 1 bpp, width/4 and width&3 for 2 bpp, width/2
and width&1 for 4 bpp). -/
def expandBits (bd : BitDepth) (width height : Nat) (reconstructed : List Nat) :
    Option (List Nat) :=
  if bd.val < 8 then
    match bd with
    | .Bpp1 => unpackRows (width / 8) (width &&& 7) 1 1 8 height reconstructed
    | .Bpp2 => unpackRows (width / 4) (width &&& 3) 2 3 4 height reconstructed
    | .Bpp4 => unpackRows (width / 2) (width &&& 1) 4 15 2 height reconstructed
    | .Bpp8 => none
  else some reconstructed

/-! ### Decoded image, palette check, and output conversion
(src/image_data.rs, src/lib.rs lines 470-487) -/

/-- Mirrors `struct ImageData` in src/image_data.rs. -/
structure ImageData where
  info : ImageInfo
  palette : List RGB888
  data : List Nat
deriving DecidableEq, Repr

/-- The palette check of `PngDecoder::decode` (src/lib.rs lines
470-479): only for Indexed images; a missing palette is `InvalidData`;
the maximum of the unpacked buffer is taken with
`reconstructed.iter().copied().max().unwrap()` — `none` models that
unwrap panicking on an empty buffer; finally a palette longer than 256
entries or a maximum that is not a valid index is `InvalidData`. -/
def paletteCheck (it : ImageType) (pal : Option (List RGB888))
    (reconstructed : List Nat) : Option (Except DecodeError Unit) :=
  if it = ImageType.Indexed then
    match pal with
    | none => some (.error .InvalidData)
    | some palette =>
      match reconstructed.max? with
      | none => none
      | some maxIndex =>
        if palette.length > 256 ∨ maxIndex ≥ palette.length then
          some (.error .InvalidData)
        else some (.ok ())
  else some (.ok ())

/-- `slice.chunks_exact(2).map(RGBA8888::from_gray_alpha ...)` in
`ImageType::iter`. -/
def grayAlphaPixels : List Nat → List RGBA8888
  | w :: a :: rest => RGBA8888.fromGrayAlpha w a :: grayAlphaPixels rest
  | _ => []

/-- `slice.chunks_exact(3).map(RGBA8888::from_rgb ...)` in
`ImageType::iter`. -/
def rgbPixels : List Nat → List RGBA8888
  | r :: g :: b :: rest => RGBA8888.fromRgb r g b :: rgbPixels rest
  | _ => []

/-- `slice.chunks_exact(4).map(RGBA8888::from_rgba ...)` in
`ImageType::iter`. -/
def rgbaPixels : List Nat → List RGBA8888
  | r :: g :: b :: a :: rest => RGBA8888.fromRgba r g b a :: rgbaPixels rest
  | _ => []

/-- `slice.iter().map(|index| palette[*index as usize].into_rgba())` in
`ImageType::iter`: indexing the palette panics (`none`) when a sample is
out of bounds. -/
def indexedPixels (slice : List Nat) (palette : List RGB888) :
    Option (List RGBA8888) :=
  match slice with
  | [] => some []
  | i :: rest =>
    match palette.get? i with
    | none => none
    | some c =>
      match indexedPixels rest palette with
      | none => none
      | some tail => some (c.intoRgba :: tail)

/-- `ImageType::iter` in src/image_data.rs: the canonical pixel stream of
a raw buffer. -/
def ImageType.iterPixels (it : ImageType) (slice : List Nat)
    (palette : List RGB888) : Option (List RGBA8888) :=
  match it with
  | .Grayscale => some (slice.map RGBA8888.fromGray)
  | .GrayscaleAlpha => some (grayAlphaPixels slice)
  | .RGB => some (rgbPixels slice)
  | .RGBA => some (rgbaPixels slice)
  | .Indexed => indexedPixels slice palette

/-- `ImageType::to_rgba_bytes` in src/image_data.rs: RGBA input is
borrowed unchanged; anything else is converted pixel by pixel into an
owned `r, g, b, a` byte stream. -/
def ImageType.toRgbaBytesFn (it : ImageType) (input : List Nat)
    (palette : List RGB888) : Option Cow :=
  match it with
  | .RGBA => some (.borrowed input)
  | _ =>
    match it.iterPixels input palette with
    | none => none
    | some px => some (.owned (px.flatMap (fun p => [p.r, p.g, p.b, p.a])))

/-- `ImageType::to_rgb_bytes` in src/image_data.rs. -/
def ImageType.toRgbBytesFn (it : ImageType) (input : List Nat)
    (palette : List RGB888) : Option Cow :=
  match it with
  | .RGB => some (.borrowed input)
  | _ =>
    match it.iterPixels input palette with
    | none => none
    | some px => some (.owned (px.flatMap (fun p => [p.r, p.g, p.b])))

/-- `ImageData::to_rgba_bytes` in src/image_data.rs. -/
def ImageData.toRgbaBytes (img : ImageData) : Option Cow :=
  img.info.imageType.toRgbaBytesFn img.data img.palette

/-- `ImageData::to_rgb_bytes` in src/image_data.rs. -/
def ImageData.toRgbBytes (img : ImageData) : Option Cow :=
  img.info.imageType.toRgbBytesFn img.data img.palette

/-! ### The decoder (src/lib.rs lines 21-134) -/

/-- Mirrors `struct PngDecoder`. -/
structure PngDecoder where
  slice : List Nat
  info : ImageInfo
deriving DecidableEq, Repr

/-- `PNG_SIGNATURE` in src/lib.rs. -/
def pngSignature : List Nat := [0x89, 0x50, 0x4E, 0x47, 0x0D, 0x0A, 0x1A, 0x0A]

/-- The `(color_type, bit_depth)` match of `PngDecoder::new` (src/lib.rs
lines 65-75). -/
def imageTypeFor (colorType : Nat) (bd : BitDepth) : Option ImageType :=
  match colorType, bd with
  | 0, .Bpp8 => some .Grayscale
  | 2, .Bpp8 => some .RGB
  | 3, .Bpp1 => some .Indexed
  | 3, .Bpp2 => some .Indexed
  | 3, .Bpp4 => some .Indexed
  | 3, .Bpp8 => some .Indexed
  | 4, .Bpp8 => some .GrayscaleAlpha
  | 6, .Bpp8 => some .RGBA
  | _, _ => none

/-- `PngDecoder::new` (src/lib.rs lines 33-92): check the 8-byte
signature, parse the 25-byte IHDR chunk, validate dimensions, bit depth,
colour model and the three method bytes.  This embeds the 64-bit build,
where the `cfg!(target_pointer_width = "32")` area guard is compiled
out. -/
def PngDecoder.new (input : List Nat) : Except DecodeError PngDecoder :=
  if input.length < 8 then .error .InvalidData
  else
    let signature := input.take 8
    let next := input.drop 8
    if signature ≠ pngSignature then .error .InvalidData
    else if next.length < 25 then .error .InvalidData
    else
      let ihdrBytes := next.take 25
      let next2 := next.drop 25
      match peekChunk ihdrBytes with
      | .error e => .error e
      | .ok ihdr =>
        if ihdr.chunkType ≠ FourCC.IHDR then .error .InvalidData
        else if ihdr.len ≠ 13 then .error .InvalidData
        else
          let width := be32 (ihdr.data.take 4)
          let height := be32 ((ihdr.data.drop 4).take 4)
          if width = 0 ∨ height = 0 then .error .InvalidData
          else
            match BitDepth.new (ihdr.data.getD 8 0) with
            | none => .error .UnsupportedFormat
            | some bitDepth =>
              match imageTypeFor (ihdr.data.getD 9 0) bitDepth with
              | none => .error .UnsupportedFormat
              | some imageType =>
                if ihdr.data.getD 10 0 ≠ 0 ∨ ihdr.data.getD 11 0 ≠ 0 ∨
                    ihdr.data.getD 12 0 ≠ 0 then
                  .error .UnsupportedFormat
                else .ok ⟨next2, ⟨width, height, bitDepth, imageType⟩⟩

/-- The row stride computation of `PngDecoder::decode` (src/lib.rs lines
148-156). -/
def strideOf (info : ImageInfo) : Nat :=
  if 8 < info.bitDepth.val then info.width * info.imageType.nChannels
  else (info.width * info.imageType.nChannels * info.bitDepth.val + 7) / 8

/-- `PngDecoder::decode` (src/lib.rs lines 106-488), parameterised by the
external `Deflate::inflate` collaborator (`none` is the inflate failure
that the source maps to `InvalidData`).  The outer `Option` models
panics: `none` means the Rust code panics instead of returning. -/
def PngDecoder.decode (inflate : List Nat → Nat → Option (List Nat))
    (d : PngDecoder) : Option (Except DecodeError ImageData) :=
  match prescan none d.slice with
  | .error e => some (.error e)
  | .ok (pal, atIdat) =>
    match getIdatChunks true atIdat with
    | .error e => some (.error e)
    | .ok cow =>
      match inflate cow.content
          ((1 + d.info.width * d.info.imageType.nChannels) * d.info.height) with
      | none => some (.error .InvalidData)
      | some inflated =>
        match reconLoop d.info.imageType.nChannels (strideOf d.info)
            d.info.height inflated [] with
        | none => none
        | some (.error e) => some (.error e)
        | some (.ok reconstructed) =>
          match expandBits d.info.bitDepth d.info.width d.info.height
              reconstructed with
          | none => none
          | some unpacked =>
            match paletteCheck d.info.imageType pal unpacked with
            | none => none
            | some (.error e) => some (.error e)
            | some (.ok _) => some (.ok ⟨d.info, pal.getD [], unpacked⟩)

/-! ### Concrete chunk streams used by counterexamples and witnesses -/

/-- Serialise one chunk: big-endian length, tag, payload, and a zero
checksum (the source never verifies checksums). -/
def mkChunk (tag : FourCC) (payload : List Nat) : List Nat :=
  be32enc payload.length ++ [tag.b0, tag.b1, tag.b2, tag.b3] ++ payload ++
    [0, 0, 0, 0]

/-- A 13-byte IHDR payload for the given geometry. -/
def ihdrPayload (width height depth colorType : Nat) : List Nat :=
  be32enc width ++ be32enc height ++ [depth, colorType, 0, 0, 0]

/-- Signature plus IHDR chunk for the given geometry. -/
def mkHeader (width height depth colorType : Nat) : List Nat :=
  pngSignature ++ mkChunk FourCC.IHDR (ihdrPayload width height depth colorType)

/-- A 1×1 grayscale 8-bit stream with one IDAT chunk. -/
def gray1x1Input : List Nat :=
  mkHeader 1 1 8 0 ++ mkChunk FourCC.IDAT [0] ++ mkChunk FourCC.IEND []

/-- The decoder state `PngDecoder::new` produces on `gray1x1Input`. -/
def gray1x1Decoder : PngDecoder :=
  ⟨mkChunk FourCC.IDAT [0] ++ mkChunk FourCC.IEND [],
    ⟨1, 1, .Bpp8, .Grayscale⟩⟩

/-- A width-5 1-bit indexed stream (two-entry palette, one IDAT chunk). -/
def indexed5x1Input : List Nat :=
  mkHeader 5 1 1 3 ++ mkChunk FourCC.PLTE [0, 0, 0, 255, 255, 255] ++
    mkChunk FourCC.IDAT [0] ++ mkChunk FourCC.IEND []

/-- The decoder state `PngDecoder::new` produces on `indexed5x1Input`. -/
def indexed5x1Decoder : PngDecoder :=
  ⟨mkChunk FourCC.PLTE [0, 0, 0, 255, 255, 255] ++ mkChunk FourCC.IDAT [0] ++
      mkChunk FourCC.IEND [],
    ⟨5, 1, .Bpp1, .Indexed⟩⟩

/-- A 2×1 grayscale 8-bit stream with one IDAT chunk. -/
def gray2x1Input : List Nat :=
  mkHeader 2 1 8 0 ++ mkChunk FourCC.IDAT [0] ++ mkChunk FourCC.IEND []

/-- The decoder state `PngDecoder::new` produces on `gray2x1Input`. -/
def gray2x1Decoder : PngDecoder :=
  ⟨mkChunk FourCC.IDAT [0] ++ mkChunk FourCC.IEND [],
    ⟨2, 1, .Bpp8, .Grayscale⟩⟩

/-- A well-formed stream whose chunk list after the header is just the
end-marker: no IDAT chunk at all. -/
def noIdatInput : List Nat := mkHeader 1 1 8 0 ++ mkChunk FourCC.IEND []

/-- The decoder state `PngDecoder::new` produces on `noIdatInput`. -/
def noIdatDecoder : PngDecoder :=
  ⟨mkChunk FourCC.IEND [], ⟨1, 1, .Bpp8, .Grayscale⟩⟩

/-- A 1×1 8-bit indexed stream with a one-entry palette. -/
def indexed1x1Input : List Nat :=
  mkHeader 1 1 8 3 ++ mkChunk FourCC.PLTE [0, 0, 0] ++
    mkChunk FourCC.IDAT [0] ++ mkChunk FourCC.IEND []

/-- The decoder state `PngDecoder::new` produces on `indexed1x1Input`. -/
def indexed1x1Decoder : PngDecoder :=
  ⟨mkChunk FourCC.PLTE [0, 0, 0] ++ mkChunk FourCC.IDAT [0] ++
      mkChunk FourCC.IEND [],
    ⟨1, 1, .Bpp8, .Indexed⟩⟩

/-- A 1×1 8-bit indexed stream whose palette chunk holds 257 entries
(771 payload bytes), more than the 256 the spec allows. -/
def bigPaletteInput : List Nat :=
  mkHeader 1 1 8 3 ++ mkChunk FourCC.PLTE (List.replicate 771 0) ++
    mkChunk FourCC.IDAT [0] ++ mkChunk FourCC.IEND []

/-- The decoder state `PngDecoder::new` produces on `bigPaletteInput`. -/
def bigPaletteDecoder : PngDecoder :=
  ⟨mkChunk FourCC.PLTE (List.replicate 771 0) ++ mkChunk FourCC.IDAT [0] ++
      mkChunk FourCC.IEND [],
    ⟨1, 1, .Bpp8, .Indexed⟩⟩

/-- A 1×1 truecolor stream that also carries a palette chunk. -/
def rgbWithPlteInput : List Nat :=
  mkHeader 1 1 8 2 ++ mkChunk FourCC.PLTE [1, 2, 3] ++
    mkChunk FourCC.IDAT [0] ++ mkChunk FourCC.IEND []

/-- The decoder state `PngDecoder::new` produces on `rgbWithPlteInput`. -/
def rgbWithPlteDecoder : PngDecoder :=
  ⟨mkChunk FourCC.PLTE [1, 2, 3] ++ mkChunk FourCC.IDAT [0] ++
      mkChunk FourCC.IEND [],
    ⟨1, 1, .Bpp8, .RGB⟩⟩

/-! ### Specification-side description of a chunk stream

`parseChunksF` is not part of the source; it only names the sequence of
chunks a byte stream denotes (walking exactly like the source's
`next_chunk`, stopping before the end-marker), so that claims about
"the chunks of the stream" can be stated. -/

/-- The chunk sequence of a byte stream up to (excluding) the first IEND
chunk; `none` when the walk fails or the end-marker is never reached
within `fuel` steps. -/
def parseChunksF : Nat → List Nat → Option (List PngChunk)
  | 0, _ => none
  | fuel + 1, s =>
    match peekChunk s with
    | .error _ => none
    | .ok c =>
      if c.chunkType = FourCC.IEND then some []
      else
        match parseChunksF fuel (chunkRest s c) with
        | none => none
        | some cs => some (c :: cs)

/-- `parseChunksF` with adequate fuel (each step consumes at least 12
bytes, so the stream length bounds the number of steps). -/
def parseChunks (s : List Nat) : Option (List PngChunk) :=
  parseChunksF s.length s

/-- Fold of the IDAT merge step over a payload list (used to state what
`get_idat_chunks` accumulates). -/
def pushAll (acc : Option Cow) (ps : List (List Nat)) : Option Cow :=
  ps.foldl (fun a p => some (cowPush a p)) acc

/-- The IDAT payloads of a chunk list, in arrival order. -/
def idatPayloads (cs : List PngChunk) : List (List Nat) :=
  (cs.filter (fun c => c.chunkType = FourCC.IDAT)).map PngChunk.data

/-- The `(color-model, bit-depth)` pairs the header validator accepts
(spec section 4.2). -/
def acceptedPairs : List (Nat × Nat) :=
  [(0, 8), (2, 8), (3, 1), (3, 2), (3, 4), (3, 8), (4, 8), (6, 8)]

/-- Whether a decoder construction succeeded. -/
def newOk (r : Except DecodeError PngDecoder) : Bool :=
  match r with
  | .ok _ => true
  | .error _ => false

/-- What `PngDecoder::new` reduces to on `mkHeader 1 1 depth colorType`
once the concrete framing has been consumed: only the bit-depth and
colour-model checks remain. -/
def newHeaderResult (depth colorType : Nat) : Except DecodeError PngDecoder :=
  match BitDepth.new depth with
  | none => .error .UnsupportedFormat
  | some bd =>
    match imageTypeFor colorType bd with
    | none => .error .UnsupportedFormat
    | some it => .ok ⟨[], ⟨1, 1, bd, it⟩⟩

/-- The part of `PngDecoder::new` that remains once the signature and the
IHDR chunk framing have been checked (src/lib.rs lines 52-91): dimension,
bit-depth, colour-model and method validation over the 13 IHDR payload
bytes, with `slice2` the remaining input after the 33 header bytes. -/
def newTail (data slice2 : List Nat) : Except DecodeError PngDecoder :=
  let width := be32 (data.take 4)
  let height := be32 ((data.drop 4).take 4)
  if width = 0 ∨ height = 0 then .error .InvalidData
  else
    match BitDepth.new (data.getD 8 0) with
    | none => .error .UnsupportedFormat
    | some bitDepth =>
      match imageTypeFor (data.getD 9 0) bitDepth with
      | none => .error .UnsupportedFormat
      | some imageType =>
        if data.getD 10 0 ≠ 0 ∨ data.getD 11 0 ≠ 0 ∨ data.getD 12 0 ≠ 0 then
          .error .UnsupportedFormat
        else .ok ⟨slice2, ⟨width, height, bitDepth, imageType⟩⟩

/-- An ancillary tag (`tEXt`): lowercase first letter, reserved bit
clear. -/
def ancTag : FourCC := ⟨0x74, 0x45, 0x58, 0x74⟩

/-- The same tag with the ancillary bit cleared (`TEXt`): critical,
still structurally valid, and unknown to the decoder. -/
def critTag : FourCC := ⟨0x54, 0x45, 0x58, 0x74⟩

/-- Chunk stream with one IDAT chunk before the end-marker. -/
def oneIdatStream : List Nat := mkChunk FourCC.IDAT [9, 9] ++ mkChunk FourCC.IEND []

/-- Chunk stream with one ancillary chunk and no IDAT before the
end-marker. -/
def noIdatStream : List Nat := mkChunk ancTag [7] ++ mkChunk FourCC.IEND []

/-! ## Helper lemmas -/

lemma isValid_IHDR : (FourCC.mk 73 72 68 82).isValid = true := by decide

lemma peek_lit25 (d c : Nat) :
    peekChunk [0, 0, 0, 13, 0x49, 0x48, 0x44, 0x52, 0, 0, 0, 1, 0, 0, 0, 1,
      d, c, 0, 0, 0, 0, 0, 0, 0] =
      .ok ⟨13, FourCC.IHDR, [0, 0, 0, 1, 0, 0, 0, 1, d, c, 0, 0, 0], 0⟩ := by
  simp [peekChunk, be32, fourccOf, FourCC.IHDR, isValid_IHDR]

lemma mkHeader_lit (d c : Nat) : mkHeader 1 1 d c =
    [0x89, 0x50, 0x4E, 0x47, 0x0D, 0x0A, 0x1A, 0x0A, 0, 0, 0, 13,
     0x49, 0x48, 0x44, 0x52, 0, 0, 0, 1, 0, 0, 0, 1, d, c, 0, 0, 0,
     0, 0, 0, 0] := by
  simp [mkHeader, mkChunk, ihdrPayload, be32enc, pngSignature, FourCC.IHDR]

/-- `PngDecoder::new` on any input whose signature and IHDR framing are
well-formed reduces to the field validation `newTail`. -/
lemma new_unfold (input : List Nat) (ch : PngChunk)
    (h1 : ¬ input.length < 8)
    (h2 : ¬ input.take 8 ≠ pngSignature)
    (h3 : ¬ (input.drop 8).length < 25)
    (h4 : peekChunk ((input.drop 8).take 25) = .ok ch)
    (h5 : ¬ ch.chunkType ≠ FourCC.IHDR)
    (h6 : ¬ ch.len ≠ 13) :
    PngDecoder.new input = newTail ch.data ((input.drop 8).drop 25) := by
  unfold PngDecoder.new
  simp only [if_neg h1, if_neg h2, if_neg h3, h4, if_neg h5, if_neg h6]
  rfl

lemma new_mkHeader (d c : Nat) :
    PngDecoder.new (mkHeader 1 1 d c) = newHeaderResult d c := by
  rw [mkHeader_lit]
  have h4 : peekChunk ((([0x89, 0x50, 0x4E, 0x47, 0x0D, 0x0A, 0x1A, 0x0A,
      0, 0, 0, 13, 0x49, 0x48, 0x44, 0x52, 0, 0, 0, 1, 0, 0, 0, 1,
      d, c, 0, 0, 0, 0, 0, 0, 0] : List Nat).drop 8).take 25) =
      .ok ⟨13, FourCC.IHDR, [0, 0, 0, 1, 0, 0, 0, 1, d, c, 0, 0, 0], 0⟩ := by
    have e2 : (([0x89, 0x50, 0x4E, 0x47, 0x0D, 0x0A, 0x1A, 0x0A,
        0, 0, 0, 13, 0x49, 0x48, 0x44, 0x52, 0, 0, 0, 1, 0, 0, 0, 1,
        d, c, 0, 0, 0, 0, 0, 0, 0] : List Nat).drop 8).take 25 =
        [0, 0, 0, 13, 0x49, 0x48, 0x44, 0x52, 0, 0, 0, 1, 0, 0, 0, 1,
         d, c, 0, 0, 0, 0, 0, 0, 0] := by simp
    rw [e2]; exact peek_lit25 d c
  rw [new_unfold _ ⟨13, FourCC.IHDR, [0, 0, 0, 1, 0, 0, 0, 1, d, c, 0, 0, 0], 0⟩
    (by simp) (by simp [pngSignature]) (by simp) h4 (by simp) (by simp)]
  unfold newTail newHeaderResult
  simp only [be32]
  simp

lemma bitDepth_new_val (d : Nat) (bd : BitDepth) (h : BitDepth.new d = some bd) :
    d = bd.val := by
  unfold BitDepth.new at h
  split at h <;> first
  | (injection h with h; subst h; rfl)
  | cases h

lemma bitDepth_val_new (bd : BitDepth) : BitDepth.new bd.val = some bd := by
  cases bd <;> rfl

lemma imageTypeFor_mem (c : Nat) (bd : BitDepth) (it : ImageType)
    (h : imageTypeFor c bd = some it) : (c, bd.val) ∈ acceptedPairs := by
  unfold imageTypeFor at h
  split at h <;> simp_all [acceptedPairs, BitDepth.val]

lemma mem_imageTypeFor (c d : Nat) (h : (c, d) ∈ acceptedPairs) :
    ∃ bd it, BitDepth.new d = some bd ∧ imageTypeFor c bd = some it := by
  fin_cases h <;> exact ⟨_, _, rfl, rfl⟩

lemma newHeaderResult_char (c d : Nat) :
    (newOk (newHeaderResult d c) = true ↔ (c, d) ∈ acceptedPairs) ∧
    ((c, d) ∉ acceptedPairs → newHeaderResult d c = .error .UnsupportedFormat) := by
  unfold newHeaderResult
  cases hbd : BitDepth.new d with
  | none =>
    constructor
    · constructor
      · intro h; simp [newOk] at h
      · intro hmem
        obtain ⟨bd, it, h1, h2⟩ := mem_imageTypeFor c d hmem
        rw [hbd] at h1; cases h1
    · intro _; rfl
  | some bd =>
    obtain rfl := bitDepth_new_val d bd hbd
    cases hit : imageTypeFor c bd with
    | none =>
      constructor
      · constructor
        · intro h; simp [newOk, hit] at h
        · intro hmem
          obtain ⟨bd2, it, h1, h2⟩ := mem_imageTypeFor c bd.val hmem
          rw [bitDepth_val_new] at h1
          cases h1
          rw [hit] at h2; cases h2
      · intro _; simp [hit]
    | some it =>
      constructor
      · constructor
        · intro _; exact imageTypeFor_mem c bd it hit
        · intro _; simp [newOk, hit]
      · intro hmem; exact absurd (imageTypeFor_mem c bd it hit) hmem

lemma be32_be32enc (n : Nat) (h : n < 4294967296) : be32 (be32enc n) = n := by
  simp [be32, be32enc]
  omega

lemma mkChunk_length (t : FourCC) (payload : List Nat) :
    (mkChunk t payload).length = payload.length + 12 := by
  simp [mkChunk, be32enc]

/-- `peek_chunk` on a serialised chunk followed by anything parses back
exactly the serialised fields (the zero checksum included). -/
lemma peekChunk_mkChunk (t : FourCC) (payload rest : List Nat)
    (hv : t.isValid = true) (hlen : payload.length < 4294967296) :
    peekChunk (mkChunk t payload ++ rest) = .ok ⟨payload.length, t, payload, 0⟩ := by
  have hA : (be32enc payload.length).length = 4 := rfl
  have e0 : mkChunk t payload ++ rest =
      be32enc payload.length ++
        ([t.b0, t.b1, t.b2, t.b3] ++ (payload ++ ([0, 0, 0, 0] ++ rest))) := by
    simp [mkChunk]
  have etake4 : (mkChunk t payload ++ rest).take 4 = be32enc payload.length := by
    rw [e0, List.take_left' hA]
  have edrop4 : (mkChunk t payload ++ rest).drop 4 =
      [t.b0, t.b1, t.b2, t.b3] ++ (payload ++ ([0, 0, 0, 0] ++ rest)) := by
    rw [e0, List.drop_left' hA]
  have edrop8 : (mkChunk t payload ++ rest).drop 8 =
      payload ++ ([0, 0, 0, 0] ++ rest) := by
    rw [e0]
    rw [show (8 : Nat) = 4 + 4 from rfl, ← List.drop_drop]
    rw [List.drop_left' hA, List.drop_left' (by rfl)]
  have elen : (mkChunk t payload ++ rest).length =
      payload.length + 12 + rest.length := by
    simp [mkChunk_length]
  unfold peekChunk
  rw [if_neg (by omega)]
  simp only [etake4, edrop4, edrop8]
  rw [be32_be32enc _ hlen]
  have efcc : fourccOf
      (([t.b0, t.b1, t.b2, t.b3] ++ (payload ++ ([0, 0, 0, 0] ++ rest))).take 4) = t := by
    rw [List.take_left' (by rfl)]
    rfl
  rw [efcc, if_neg (by simp [hv])]
  rw [if_neg (by simp)]
  rw [if_neg (by omega)]
  have edata : (payload ++ ([0, 0, 0, 0] ++ rest)).take payload.length = payload :=
    List.take_left' rfl
  have ecrc : (payload ++ ([0, 0, 0, 0] ++ rest)).drop payload.length =
      [0, 0, 0, 0] ++ rest :=
    List.drop_left' rfl
  rw [edata, ecrc]
  simp [be32]

lemma prescanF_succ (fuel : Nat) (pal : Option (List RGB888)) (s : List Nat) :
    prescanF (fuel + 1) pal s =
      match peekChunk s with
      | .error e => .error e
      | .ok c =>
        if c.chunkType = FourCC.IDAT then .ok (pal, s)
        else if c.chunkType = FourCC.PLTE then
          if c.len % 3 ≠ 0 ∨ pal.isSome then .error .InvalidData
          else prescanF fuel (some (plteEntries c.data)) (chunkRest s c)
        else if c.chunkType.isCritical then .error .UnsupportedFormat
        else prescanF fuel pal (chunkRest s c) := rfl

lemma peekChunk_ok_le (s : List Nat) (c : PngChunk) (h : peekChunk s = .ok c) :
    12 ≤ s.length ∧ c.len + 12 ≤ s.length := by
  simp only [peekChunk] at h
  split_ifs at h with h1 h2 h3 h4
  injection h with h
  subst h
  simp only
  omega

lemma chunkRest_mkChunk (t : FourCC) (payload rest : List Nat) (c : PngChunk)
    (hc : c.len = payload.length) :
    chunkRest (mkChunk t payload ++ rest) c = rest := by
  unfold chunkRest
  rw [hc]
  rw [List.drop_left' (by rw [mkChunk_length])]

lemma peekChunk_nil : peekChunk [] = .error .InvalidData := rfl

/-- Fuel above the stream length is irrelevant to the pre-IDAT scan:
each step consumes at least 12 bytes of the stream. -/
lemma prescanF_irrel : ∀ fuel fuel2 (pal : Option (List RGB888)) (s : List Nat),
    s.length ≤ fuel → s.length ≤ fuel2 →
    prescanF fuel pal s = prescanF fuel2 pal s := by
  intro fuel
  induction fuel with
  | zero =>
    intro fuel2 pal s h1 h2
    have hs : s = [] := List.eq_nil_of_length_eq_zero (by omega)
    subst hs
    cases fuel2 with
    | zero => rfl
    | succ k => rw [prescanF_succ, peekChunk_nil]; rfl
  | succ k ih =>
    intro fuel2 pal s h1 h2
    cases fuel2 with
    | zero =>
      have hs : s = [] := List.eq_nil_of_length_eq_zero (by omega)
      subst hs
      rw [prescanF_succ, peekChunk_nil]; rfl
    | succ k2 =>
      rw [prescanF_succ, prescanF_succ]
      cases hpk : peekChunk s with
      | error e => rfl
      | ok c =>
        obtain ⟨h12, hcl⟩ := peekChunk_ok_le s c hpk
        have hrest : (chunkRest s c).length = s.length - (c.len + 12) := by
          simp [chunkRest]
        by_cases hidat : c.chunkType = FourCC.IDAT
        · simp [hidat]
        · by_cases hplte : c.chunkType = FourCC.PLTE
          · simp only [if_neg hidat, if_pos hplte]
            by_cases hbad : c.len % 3 ≠ 0 ∨ pal.isSome
            · rw [if_pos hbad, if_pos hbad]
            · rw [if_neg hbad, if_neg hbad]
              exact ih k2 _ _ (by omega) (by omega)
          · simp only [if_neg hidat, if_neg hplte]
            by_cases hcrit : c.chunkType.isCritical
            · rw [if_pos hcrit, if_pos hcrit]
            · rw [if_neg hcrit, if_neg hcrit]
              exact ih k2 _ _ (by omega) (by omega)

/-- The pre-IDAT scan on a stream headed by a serialised non-PLTE,
non-IDAT chunk: fail if the chunk is critical, skip it otherwise. -/
lemma prescan_step (t : FourCC) (payload rest : List Nat)
    (pal : Option (List RGB888))
    (hv : t.isValid = true) (hlen : payload.length < 4294967296)
    (hplte : t ≠ FourCC.PLTE) (hidat : t ≠ FourCC.IDAT) :
    prescan pal (mkChunk t payload ++ rest) =
      if t.isCritical then .error .UnsupportedFormat else prescan pal rest := by
  unfold prescan
  have hlen2 : (mkChunk t payload ++ rest).length =
      payload.length + 12 + rest.length := by
    simp [mkChunk_length]
  rw [hlen2]
  obtain ⟨f, hf⟩ : ∃ f, payload.length + 12 + rest.length = f + 1 :=
    ⟨payload.length + 11 + rest.length, by omega⟩
  rw [hf, prescanF_succ, peekChunk_mkChunk t payload rest hv hlen]
  simp only [if_neg hidat, if_neg hplte]
  by_cases hcrit : t.isCritical
  · rw [if_pos hcrit, if_pos hcrit]
  · rw [if_neg hcrit, if_neg hcrit]
    rw [chunkRest_mkChunk t payload rest _ rfl]
    exact prescanF_irrel f rest.length pal rest (by omega) (le_refl _)

lemma decode_prescan_congr (s1 s2 : List Nat) (info : ImageInfo)
    (inflate : List Nat → Nat → Option (List Nat))
    (h : prescan none s1 = prescan none s2) :
    PngDecoder.decode inflate ⟨s1, info⟩ = PngDecoder.decode inflate ⟨s2, info⟩ := by
  unfold PngDecoder.decode
  rw [h]

lemma decode_prescan_error (s : List Nat) (info : ImageInfo)
    (inflate : List Nat → Nat → Option (List Nat)) (e : DecodeError)
    (h : prescan none s = .error e) :
    PngDecoder.decode inflate ⟨s, info⟩ = some (.error e) := by
  unfold PngDecoder.decode
  rw [h]

lemma parseChunksF_succ (fuel : Nat) (s : List Nat) :
    parseChunksF (fuel + 1) s =
      match peekChunk s with
      | .error _ => none
      | .ok c =>
        if c.chunkType = FourCC.IEND then some []
        else
          match parseChunksF fuel (chunkRest s c) with
          | none => none
          | some cs => some (c :: cs) := rfl

/-- The pre-IDAT scan of a stream whose chunks (up to the end-marker)
contain no IDAT ends in `UnsupportedFormat`: either an unknown critical
chunk aborts it early, or the walk reaches IEND, which the unknown-chunk
arm also treats as critical. -/
lemma prescan_no_idat : ∀ (fuel : Nat) (s : List Nat) (pal : Option (List RGB888))
    (cs : List PngChunk),
    parseChunksF fuel s = some cs →
    (∀ c ∈ cs, c.chunkType ≠ FourCC.IDAT) →
    (∀ c ∈ cs, c.chunkType = FourCC.PLTE → c.len % 3 = 0) →
    (cs.filter (fun c => c.chunkType = FourCC.PLTE)).length +
      (if pal.isSome then 1 else 0) ≤ 1 →
    prescanF fuel pal s = .error .UnsupportedFormat := by
  intro fuel
  induction fuel with
  | zero =>
    intro s pal cs hp hni hp3 honce
    simp [parseChunksF] at hp
  | succ k ih =>
    intro s pal cs hp hni hp3 honce
    rw [parseChunksF_succ] at hp
    rw [prescanF_succ]
    cases hpk : peekChunk s with
    | error e => rw [hpk] at hp; simp at hp
    | ok c =>
      rw [hpk] at hp
      simp only at hp ⊢
      by_cases hiend : c.chunkType = FourCC.IEND
      · rw [if_neg (by rw [hiend]; decide), if_neg (by rw [hiend]; decide),
          if_pos (by rw [hiend]; decide)]
      · rw [if_neg hiend] at hp
        cases hrec : parseChunksF k (chunkRest s c) with
        | none => rw [hrec] at hp; simp at hp
        | some cs2 =>
          rw [hrec] at hp
          simp only [Option.some.injEq] at hp
          subst hp
          have hcni : c.chunkType ≠ FourCC.IDAT := hni c (List.mem_cons_self _ _)
          rw [if_neg hcni]
          by_cases hcplte : c.chunkType = FourCC.PLTE
          · simp only [List.filter_cons, hcplte] at honce
            simp at honce
            have hpal : pal = none := by
              cases pal with
              | none => rfl
              | some p => simp at honce
            subst hpal
            rw [if_pos hcplte,
              if_neg (by simp [hp3 c (List.mem_cons_self _ _) hcplte])]
            apply ih
            · exact hrec
            · intro x hx; exact hni x (List.mem_cons_of_mem _ hx)
            · intro x hx hpx; exact hp3 x (List.mem_cons_of_mem _ hx) hpx
            · simp at honce ⊢
              exact honce
          · rw [if_neg hcplte]
            by_cases hcrit : c.chunkType.isCritical
            · rw [if_pos hcrit]
            · rw [if_neg hcrit]
              apply ih
              · exact hrec
              · intro x hx; exact hni x (List.mem_cons_of_mem _ hx)
              · intro x hx hpx; exact hp3 x (List.mem_cons_of_mem _ hx) hpx
              · simp only [List.filter_cons, hcplte] at honce
                simp at honce ⊢
                omega

lemma getIdatLoopF_succ (fuel : Nat) (data : Option Cow) (s : List Nat) :
    getIdatLoopF (fuel + 1) data s =
      match peekChunk s with
      | .error e => .error e
      | .ok c =>
        if c.chunkType = FourCC.IEND then
          match data with
          | none => .error .InvalidData
          | some v => .ok v
        else if c.chunkType ≠ FourCC.IDAT then
          if c.chunkType.isCritical then .error .UnsupportedFormat
          else getIdatLoopF fuel data (chunkRest s c)
        else getIdatLoopF fuel (some (cowPush data c.data)) (chunkRest s c) := rfl

/-- The merge loop of `get_idat_chunks` computes exactly the fold of the
merge step over the IDAT payloads of the stream's chunk sequence. -/
lemma getIdat_spec : ∀ (fuel : Nat) (s : List Nat) (acc : Option Cow)
    (cs : List PngChunk),
    parseChunksF fuel s = some cs →
    (∀ c ∈ cs, c.chunkType ≠ FourCC.IDAT → c.chunkType.isAncillary = true) →
    getIdatLoopF fuel acc s =
      (match pushAll acc (idatPayloads cs) with
       | none => .error .InvalidData
       | some cow => .ok cow) := by
  intro fuel
  induction fuel with
  | zero =>
    intro s acc cs hp hanc
    simp [parseChunksF] at hp
  | succ k ih =>
    intro s acc cs hp hanc
    rw [parseChunksF_succ] at hp
    rw [getIdatLoopF_succ]
    cases hpk : peekChunk s with
    | error e => rw [hpk] at hp; simp at hp
    | ok c =>
      rw [hpk] at hp
      simp only at hp ⊢
      by_cases hiend : c.chunkType = FourCC.IEND
      · rw [if_pos hiend] at hp
        simp only [Option.some.injEq] at hp
        subst hp
        rw [if_pos hiend]
        cases acc <;> rfl
      · rw [if_neg hiend] at hp
        cases hrec : parseChunksF k (chunkRest s c) with
        | none => rw [hrec] at hp; simp at hp
        | some cs2 =>
          rw [hrec] at hp
          simp only [Option.some.injEq] at hp
          subst hp
          rw [if_neg hiend]
          by_cases hidat : c.chunkType = FourCC.IDAT
          · rw [if_neg (not_not_intro hidat)]
            have hpay : idatPayloads (c :: cs2) = c.data :: idatPayloads cs2 := by
              simp [idatPayloads, List.filter_cons, hidat]
            rw [hpay]
            have hstep : pushAll acc (c.data :: idatPayloads cs2) =
                pushAll (some (cowPush acc c.data)) (idatPayloads cs2) := rfl
            rw [hstep]
            exact ih _ _ _ hrec (fun x hx => hanc x (List.mem_cons_of_mem _ hx))
          · rw [if_pos hidat]
            rw [if_neg (by simp [FourCC.isCritical,
              hanc c (List.mem_cons_self _ _) hidat])]
            have hpay : idatPayloads (c :: cs2) = idatPayloads cs2 := by
              simp [idatPayloads, List.filter_cons, hidat]
            rw [hpay]
            exact ih _ _ _ hrec (fun x hx => hanc x (List.mem_cons_of_mem _ hx))

lemma cowPush_content (acc : Option Cow) (p : List Nat) :
    (cowPush acc p).content =
      (match acc with | none => ([] : List Nat) | some a => a.content) ++ p := by
  cases acc with
  | none => rfl
  | some cw => cases cw <;> rfl

lemma pushAll_content : ∀ (ps : List (List Nat)) (acc : Option Cow) (cow : Cow),
    pushAll acc ps = some cow →
    cow.content =
      (match acc with | none => ([] : List Nat) | some a => a.content) ++
        ps.flatten := by
  intro ps
  induction ps with
  | nil =>
    intro acc cow h
    cases acc with
    | none => simp [pushAll] at h
    | some a => simp [pushAll] at h; subst h; simp
  | cons p ps2 ih =>
    intro acc cow h
    have h2 : pushAll (some (cowPush acc p)) ps2 = some cow := h
    have h3 := ih (some (cowPush acc p)) cow h2
    rw [h3]
    cases acc with
    | none => simp [cowPush_content]
    | some a => simp [cowPush_content]

/-! ## Claim theorems -/

/-- Claim C1 (code bug): the spec says a row filtered with Average or
Paeth always reconstructs to exactly `stride` bytes, with absent
neighbours taken as zero, so a first row `[filtered]` under Average
reconstructs to `[filtered + floor((0+0)/2)] = [42]` and under Paeth to
`[42]` (first two conjuncts compute those spec-side values from the
embedded `average` and `paeth`).  The code instead zips the filtered
bytes against the empty previous-row buffer on the first row, emitting an
empty row: decoding a 1×1 grayscale image (stride 1) whose single row is
Average- (resp. Paeth-) filtered succeeds with a pixel buffer of 0 bytes
instead of 1. -/
theorem claim1_first_row_average_paeth_row_dropped :
    (42 + average 0 0) % 256 = 42 ∧
    (42 + paeth 0 0 0) % 256 = 42 ∧
    PngDecoder.new gray1x1Input = .ok gray1x1Decoder ∧
    strideOf gray1x1Decoder.info = 1 ∧
    gray1x1Decoder.decode (fun _ _ => some [3, 42]) =
      some (.ok ⟨gray1x1Decoder.info, [], []⟩) ∧
    gray1x1Decoder.decode (fun _ _ => some [4, 42]) =
      some (.ok ⟨gray1x1Decoder.info, [], []⟩) := by
  decide

/-- Claim C2 (code bug): for a 1-bit row of width 5 packed as the single
byte `0b10110000`, the spec (and the PNG format, MSB-first) expects the
unpacked samples `[1, 0, 1, 1, 0]` — the top five bits.  The code's
partial-byte loop shifts by `i` for `i` in `(0..w8r).rev()`, extracting
the LOW five bits, so decoding a width-5 1-bit indexed image whose
reconstructed row is `[0xB0]` yields `[1, 0, 0, 0, 0]`. -/
theorem claim2_partial_byte_low_bits :
    PngDecoder.new indexed5x1Input = .ok indexed5x1Decoder ∧
    indexed5x1Decoder.decode (fun _ _ => some [0, 0xB0]) =
      some (.ok ⟨indexed5x1Decoder.info, [⟨0, 0, 0⟩, ⟨255, 255, 255⟩],
        [1, 0, 0, 0, 0]⟩) ∧
    [1, 0, 0, 0, 0] ≠ [1, 0, 1, 1, 0] := by
  decide

/-- Claim C3 (code bug): the spec says every successful decode followed
by `to_rgba_bytes` yields exactly `width * height * 4` bytes.  Because
the first-row Average bug (claim C1) drops the whole first row, a 2×1
grayscale image whose single row is Average-filtered decodes successfully
to an EMPTY pixel buffer, and `to_rgba_bytes` returns 0 bytes instead of
`2 * 1 * 4 = 8`. -/
theorem claim3_rgba_length_violated :
    PngDecoder.new gray2x1Input = .ok gray2x1Decoder ∧
    gray2x1Decoder.decode (fun _ _ => some [3, 10, 20]) =
      some (.ok ⟨gray2x1Decoder.info, [], []⟩) ∧
    ImageData.toRgbaBytes ⟨gray2x1Decoder.info, [], []⟩ =
      some (Cow.owned []) ∧
    (Cow.owned []).content.length = 0 ∧
    gray2x1Decoder.info.width * gray2x1Decoder.info.height * 4 = 8 := by
  decide

/-- Claim C4 (counterexample): on a structurally well-formed stream whose
chunk list is just the end-marker (no IDAT), `decode` fails with
`UnsupportedFormat`, not with the `InvalidData` the claim states: the
pre-IDAT scan reaches the IEND chunk, which is neither PLTE nor IDAT and
is critical (uppercase first letter), so the unknown-critical arm fires
first. -/
theorem claim4_counterexample_no_idat_unsupported :
    PngDecoder.new noIdatInput = .ok noIdatDecoder ∧
    noIdatDecoder.decode (fun _ _ => none) =
      some (.error .UnsupportedFormat) ∧
    (some (.error .UnsupportedFormat) : Option (Except DecodeError ImageData)) ≠
      some (.error .InvalidData) := by
  decide

/-- Claim C5 (code bug): decode can panic.  For a 1×1 8-bit indexed image
whose single row is Average-filtered, the first-row Average bug (claim
C1) leaves the reconstructed buffer empty, and the palette check then
calls `.max().unwrap()` on that empty buffer — a panic (`none` in the
embedding) instead of an `Ok`/`Err` return. -/
theorem claim5_decode_panics_on_empty_buffer_max :
    PngDecoder.new indexed1x1Input = .ok indexed1x1Decoder ∧
    indexed1x1Decoder.decode (fun _ _ => some [3, 0]) = none := by
  decide

set_option maxRecDepth 40000 in
/-- Claim C6 (code bug): the claim says a captured palette with more than
256 entries makes an Indexed decode fail with `InvalidData`.  With a
257-entry palette and a single Average-filtered row, the first-row
Average bug (claim C1) leaves the unpacked buffer empty, and
`.max().unwrap()` — evaluated before the `palette.len() > 256` test —
panics instead of returning `InvalidData`. -/
theorem claim6_palette_check_panics_not_invaliddata :
    PngDecoder.new bigPaletteInput = .ok bigPaletteDecoder ∧
    (plteEntries (List.replicate 771 0)).length = 257 ∧
    bigPaletteDecoder.decode (fun _ _ => some [3, 0]) = none ∧
    (none : Option (Except DecodeError ImageData)) ≠
      some (.error .InvalidData) := by
  decide

/-- Claim C7: over the family of well-formed headers `mkHeader 1 1 d c`
(1×1 image, zero method bytes, bit-depth byte `d`, colour-model byte
`c`), decoder construction succeeds exactly when `(c, d)` is one of
{(0,8), (2,8), (3,1), (3,2), (3,4), (3,8), (4,8), (6,8)}, and every
other pairing is rejected with `UnsupportedFormat`; in particular the
pair (2,1) — truecolor at 1 bit — is rejected with
`UnsupportedFormat`. -/
theorem claim7_header_pairs_exact (c d : Nat) :
    (newOk (PngDecoder.new (mkHeader 1 1 d c)) = true ↔ (c, d) ∈ acceptedPairs) ∧
    ((c, d) ∉ acceptedPairs →
      PngDecoder.new (mkHeader 1 1 d c) = .error .UnsupportedFormat) ∧
    PngDecoder.new (mkHeader 1 1 1 2) = .error .UnsupportedFormat := by
  refine ⟨?_, ?_, ?_⟩
  · rw [new_mkHeader]; exact (newHeaderResult_char c d).1
  · rw [new_mkHeader]; exact (newHeaderResult_char c d).2
  · rw [new_mkHeader]; exact (newHeaderResult_char 2 1).2 (by decide)

/-- Claim C7 witness: the accepted pair (0,8) constructs a decoder and
the rejected pair (2,1) fails with `UnsupportedFormat`, by the claim
theorem at concrete bytes. -/
theorem claim7_header_pairs_exact_witness :
    newOk (PngDecoder.new (mkHeader 1 1 8 0)) = true ∧
    PngDecoder.new (mkHeader 1 1 1 2) = .error .UnsupportedFormat :=
  ⟨(claim7_header_pairs_exact 0 8).1.mpr (by decide),
   (claim7_header_pairs_exact 2 1).2.1 (by decide)⟩

/-- Claim C8 (counterexample): a successfully decoded non-Indexed (RGB)
image from a stream that carries a palette chunk does NOT get an empty
palette: `palette.unwrap_or_default()` stores the captured palette in the
`ImageData` even though the image is not Indexed. -/
theorem claim8_counterexample_rgb_keeps_palette :
    PngDecoder.new rgbWithPlteInput = .ok rgbWithPlteDecoder ∧
    rgbWithPlteDecoder.decode (fun _ _ => some [0, 9, 9, 9]) =
      some (.ok ⟨rgbWithPlteDecoder.info, [⟨1, 2, 3⟩], [9, 9, 9]⟩) ∧
    ([⟨1, 2, 3⟩] : List RGB888) ≠ [] := by
  decide

/-- Claim C4 (amended): on every structurally well-formed chunk stream
(all chunks parse, palette chunks well-formed and unique) that contains
no IDAT chunk before the end-marker, decode fails — but with
`UnsupportedFormat`, not the `InvalidData` the original claim stated: the
pre-IDAT scan reaches either an unknown critical chunk or the IEND
chunk itself, and both fall into the unknown-critical arm. -/
theorem claim4_no_idat_fails_unsupported (d : PngDecoder)
    (inflate : List Nat → Nat → Option (List Nat)) (cs : List PngChunk)
    (hparse : parseChunks d.slice = some cs)
    (hnoidat : ∀ c ∈ cs, c.chunkType ≠ FourCC.IDAT)
    (hplte3 : ∀ c ∈ cs, c.chunkType = FourCC.PLTE → c.len % 3 = 0)
    (honce : (cs.filter (fun c => c.chunkType = FourCC.PLTE)).length ≤ 1) :
    PngDecoder.decode inflate d = some (.error .UnsupportedFormat) := by
  unfold PngDecoder.decode
  rw [show prescan none d.slice = .error .UnsupportedFormat from
    prescan_no_idat d.slice.length d.slice none cs hparse hnoidat hplte3
      (by simpa using honce)]

/-- Claim C4 witness: a stream holding one ancillary chunk and the
end-marker (no IDAT) decodes to `UnsupportedFormat`, by the amended
theorem at a concrete stream. -/
theorem claim4_no_idat_fails_unsupported_witness :
    PngDecoder.decode (fun _ _ => none)
      (PngDecoder.mk (mkChunk ancTag [1] ++ mkChunk FourCC.IEND [])
        ⟨1, 1, .Bpp8, .Grayscale⟩) =
      some (.error .UnsupportedFormat) :=
  claim4_no_idat_fails_unsupported _ _ [⟨1, ancTag, [1], 0⟩] (by decide)
    (by decide) (by decide) (by decide)

/-- Claim C8 (amended): for every successful decode, the Decoded Image's
palette is exactly what the pre-IDAT scan captured (the captured palette
if a PLTE chunk was seen, empty otherwise) — so a non-Indexed image
carries an empty palette only when the stream had no palette chunk
before the data. -/
theorem claim8_palette_passthrough (d : PngDecoder)
    (inflate : List Nat → Nat → Option (List Nat)) (img : ImageData)
    (pal : Option (List RGB888)) (atIdat : List Nat)
    (hp : prescan none d.slice = .ok (pal, atIdat))
    (hok : PngDecoder.decode inflate d = some (.ok img)) :
    img.palette = pal.getD [] := by
  unfold PngDecoder.decode at hok
  rw [hp] at hok
  simp only [] at hok
  repeat' split at hok
  all_goals first
  | (simp at hok; done)
  | (simp only [Option.some.injEq, Except.ok.injEq] at hok; subst hok; rfl)

/-- Claim C8 witness: the RGB-with-palette decode of the counterexample,
fed to the amended theorem, shows the stored palette is the captured
one. -/
theorem claim8_palette_passthrough_witness :
    (ImageData.mk ⟨1, 1, .Bpp8, .RGB⟩ [⟨1, 2, 3⟩] [9, 9, 9]).palette =
      (some [RGB888.mk 1 2 3]).getD [] :=
  claim8_palette_passthrough rgbWithPlteDecoder (fun _ _ => some [0, 9, 9, 9])
    (ImageData.mk ⟨1, 1, .Bpp8, .RGB⟩ [⟨1, 2, 3⟩] [9, 9, 9])
    (some [⟨1, 2, 3⟩]) (mkChunk FourCC.IDAT [0] ++ mkChunk FourCC.IEND [])
    (by decide) (by decide)

/-- Claim C9: over every chunk stream whose chunk sequence up to the
end-marker parses (unknown non-IDAT chunks all ancillary), the merge pass
(`get_idat_chunks` with the palette pre-scan skipped, as decode calls it)
collects the IDAT payloads in arrival order: no IDAT is `InvalidData`,
exactly one IDAT borrows that payload without copying
(`Cow.borrowed`), and any successful result's bytes are the
concatenation of all IDAT payloads in arrival order — the same bytes as
if they had been one chunk. -/
theorem claim9_idat_merge_content_and_borrow (s : List Nat) (cs : List PngChunk)
    (hparse : parseChunks s = some cs)
    (hanc : ∀ c ∈ cs, c.chunkType ≠ FourCC.IDAT → c.chunkType.isAncillary = true) :
    (idatPayloads cs = [] → getIdatChunks true s = .error .InvalidData) ∧
    (∀ p, idatPayloads cs = [p] → getIdatChunks true s = .ok (Cow.borrowed p)) ∧
    (∀ cow, getIdatChunks true s = .ok cow →
      cow.content = (idatPayloads cs).flatten) := by
  have hg : getIdatChunks true s = getIdatLoopF s.length none s := rfl
  have hspec := getIdat_spec s.length s none cs hparse hanc
  refine ⟨?_, ?_, ?_⟩
  · intro hnil
    rw [hg, hspec, hnil]
    rfl
  · intro p hp1
    rw [hg, hspec, hp1]
    rfl
  · intro cow hcow
    rw [hg, hspec] at hcow
    cases hpa : pushAll none (idatPayloads cs) with
    | none => rw [hpa] at hcow; cases hcow
    | some cow2 =>
      rw [hpa] at hcow
      simp only [Except.ok.injEq] at hcow
      subst hcow
      have := pushAll_content (idatPayloads cs) none cow2 hpa
      simpa using this

/-- Claim C9 witness: a single-IDAT stream borrows its payload and a
stream with only an ancillary chunk before IEND is `InvalidData`, by the
claim theorem at concrete streams. -/
theorem claim9_idat_merge_content_and_borrow_witness :
    getIdatChunks true oneIdatStream = .ok (Cow.borrowed [9, 9]) ∧
    getIdatChunks true noIdatStream = .error .InvalidData :=
  ⟨(claim9_idat_merge_content_and_borrow oneIdatStream
      [⟨2, FourCC.IDAT, [9, 9], 0⟩] (by decide) (by decide)).2.1 [9, 9] (by decide),
   (claim9_idat_merge_content_and_borrow noIdatStream
      [⟨1, ancTag, [7], 0⟩] (by decide) (by decide)).1 (by decide)⟩

/-- Claim C10: during decode's pre-IDAT chunk walk, a chunk whose valid
tag is neither PLTE nor IDAT is silently skipped when its ancillary bit
(byte 0, bit 5) is set — decode behaves exactly as if the chunk were not
there — and makes decode fail with `UnsupportedFormat` when the bit is
clear (critical). -/
theorem claim10_unknown_chunk_skip_or_fail (t : FourCC)
    (payload rest : List Nat) (info : ImageInfo)
    (inflate : List Nat → Nat → Option (List Nat))
    (hv : t.isValid = true) (hlen : payload.length < 4294967296)
    (hplte : t ≠ FourCC.PLTE) (hidat : t ≠ FourCC.IDAT) :
    (t.isAncillary = true →
      PngDecoder.decode inflate ⟨mkChunk t payload ++ rest, info⟩ =
        PngDecoder.decode inflate ⟨rest, info⟩) ∧
    (t.isAncillary = false →
      PngDecoder.decode inflate ⟨mkChunk t payload ++ rest, info⟩ =
        some (.error .UnsupportedFormat)) := by
  constructor
  · intro hanc
    refine decode_prescan_congr _ _ info inflate ?_
    rw [prescan_step t payload rest none hv hlen hplte hidat,
      if_neg (by simp [FourCC.isCritical, hanc])]
  · intro hanc
    refine decode_prescan_error _ info inflate _ ?_
    rw [prescan_step t payload rest none hv hlen hplte hidat,
      if_pos (by simp [FourCC.isCritical, hanc])]

/-- Claim C10 witness: prepending the ancillary chunk `tEXt` leaves a
concrete decode unchanged, and prepending the critical variant `TEXt`
makes it fail with `UnsupportedFormat`, by the claim theorem at concrete
tags. -/
theorem claim10_unknown_chunk_skip_or_fail_witness :
    (PngDecoder.decode (fun _ _ => none)
        ⟨mkChunk ancTag [7] ++ gray1x1Decoder.slice, gray1x1Decoder.info⟩ =
      PngDecoder.decode (fun _ _ => none)
        ⟨gray1x1Decoder.slice, gray1x1Decoder.info⟩) ∧
    (PngDecoder.decode (fun _ _ => none)
        ⟨mkChunk critTag [] ++ gray1x1Decoder.slice, gray1x1Decoder.info⟩ =
      some (.error .UnsupportedFormat)) :=
  ⟨(claim10_unknown_chunk_skip_or_fail ancTag [7] gray1x1Decoder.slice
      gray1x1Decoder.info _ (by decide) (by decide) (by decide) (by decide)).1
      (by decide),
   (claim10_unknown_chunk_skip_or_fail critTag [] gray1x1Decoder.slice
      gray1x1Decoder.info _ (by decide) (by decide) (by decide) (by decide)).2
      (by decide)⟩

end Pngss
